import Mathlib

/-!
Shallow embedding of `gistapi/gistapi.py`: a Flask service that searches a
user's GitHub gists for a regular-expression pattern and streams matches as
newline-delimited JSON.  The upstream HTTP world (the GitHub listing endpoint,
the per-gist manifest endpoint, the raw-content endpoint) and the platform
regex compiler are modelled as an explicit environment; the handler and its
helpers are translated function by function from the source.
-/

namespace Gistapi

open RegularExpression

/-- JSON values as produced by `request.get_json()` / `json.dumps`.  Objects
keep their fields in insertion order, mirroring Python dicts. -/
inductive Json where
  | str (s : String)
  | int (n : Int)
  | bool (b : Bool)
  | arr (xs : List Json)
  | obj (fields : List (String × Json))
deriving Repr

/-- Field lookup in a JSON object (Python dict access; keys are unique in
practice, the first binding wins). -/
def lookupField : List (String × Json) → String → Option Json
  | [], _ => none
  | (k, v) :: rest, key => if k = key then some v else lookupField rest key

/-- `j.get? k` models `post_data.get(k)` on a parsed JSON object. -/
def Json.get? : Json → String → Option Json
  | .obj fs, k => lookupField fs k
  | _, _ => none

mutual
/-- Python `repr` of a JSON-parsed value, as interpolated into `jsonschema`
error messages. -/
def Json.pyRepr : Json → String
  | .str s => "\x27" ++ s ++ "\x27"
  | .int n => toString n
  | .bool true => "True"
  | .bool false => "False"
  | .arr xs => "[" ++ Json.pyReprList xs ++ "]"
  | .obj fs => "\x7b" ++ Json.pyReprFields fs ++ "\x7d"

def Json.pyReprList : List Json → String
  | [] => ""
  | [x] => Json.pyRepr x
  | x :: y :: rest => Json.pyRepr x ++ ", " ++ Json.pyReprList (y :: rest)

def Json.pyReprFields : List (String × Json) → String
  | [] => ""
  | [(k, v)] => "\x27" ++ k ++ "\x27: " ++ Json.pyRepr v
  | (k, v) :: f :: rest =>
      "\x27" ++ k ++ "\x27: " ++ Json.pyRepr v ++ ", " ++ Json.pyReprFields (f :: rest)
end

/-- `jsonschema` message for a value failing a `type` keyword. -/
def js_type_error (j : Json) (ty : String) : String :=
  j.pyRepr ++ " is not of type \x27" ++ ty ++ "\x27"

/-- Subschema `{"type": "string"}` of `search_input_schema` for `username`
and `pattern`. -/
def check_string_prop (j : Json) : Option String :=
  match j with
  | .str _ => none
  | _ => some (js_type_error j "string")

/-- Subschema `{"type": "integer", "minimum": 1}` for `page`. -/
def check_page_prop (j : Json) : Option String :=
  match j with
  | .int n => if n < 1 then some (j.pyRepr ++ " is less than the minimum of 1") else none
  | _ => some (js_type_error j "integer")

/-- Subschema `{"type": "integer", "minimum": 1, "maximum": 100}` for
`per_page`. -/
def check_per_page_prop (j : Json) : Option String :=
  match j with
  | .int n =>
      if n < 1 then some (j.pyRepr ++ " is less than the minimum of 1")
      else if n > 100 then some (j.pyRepr ++ " is greater than the maximum of 100")
      else none
  | _ => some (js_type_error j "integer")

/-- A `properties` entry constrains the field only when it is present. -/
def optCheck (o : Option Json) (f : Json → Option String) : Option String :=
  match o with
  | none => none
  | some v => f v

/-- A `required` entry: the field must be present. -/
def requiredCheck (j : Json) (k : String) : Option String :=
  match j.get? k with
  | some _ => none
  | none => some ("\x27" ++ k ++ "\x27 is a required property")

/-- `jsonschema.validate(instance, search_input_schema)`: `none` when the
instance validates, otherwise the message of the reported `ValidationError`.
Keywords are checked in schema order (`type`, `properties`, `required`),
properties and required names in their declaration order. -/
def validate_search_input (j : Json) : Option String :=
  match j with
  | .obj _ =>
      optCheck (j.get? "username") check_string_prop <|>
      optCheck (j.get? "pattern") check_string_prop <|>
      optCheck (j.get? "page") check_page_prop <|>
      optCheck (j.get? "per_page") check_per_page_prop <|>
      requiredCheck j "username" <|>
      requiredCheck j "pattern"
  | _ => some (js_type_error j "object")

/-- Item subschema of `search_output_schema.matches`: an object with required
string fields `gist_id`, `filename`, `url`. -/
def is_match_obj (j : Json) : Bool :=
  match j with
  | .obj _ =>
      (match j.get? "gist_id" with | some (.str _) => true | _ => false) &&
      (match j.get? "filename" with | some (.str _) => true | _ => false) &&
      (match j.get? "url" with | some (.str _) => true | _ => false)
  | _ => false

/-- `jsonschema.validate(instance, search_output_schema)` as a validity
decision: an object whose six required fields are present with their declared
types, `matches` being an array of match objects. -/
def validate_search_output (j : Json) : Bool :=
  match j with
  | .obj _ =>
      (match j.get? "status" with | some (.str _) => true | _ => false) &&
      (match j.get? "username" with | some (.str _) => true | _ => false) &&
      (match j.get? "pattern" with | some (.str _) => true | _ => false) &&
      (match j.get? "matches" with | some (.arr xs) => xs.all is_match_obj | _ => false) &&
      (match j.get? "page" with | some (.int _) => true | _ => false) &&
      (match j.get? "more_pages" with | some (.bool _) => true | _ => false)
  | _ => false

/-- One gist summary from the upstream listing response, with the three
fields the service reads: `gist["id"]`, `gist["url"]` (metadata URL),
`gist["html_url"]`. -/
structure GistSummary where
  id : String
  url : String
  html_url : String
deriving Repr, DecidableEq

/-- The world outside the process: the three upstream HTTP endpoints (each
returning `.error e` when `requests` raises / `raise_for_status` fires, with
`e` the exception text) and the platform regex compiler (`re.compile`,
`none` on `re.error`).  A compiled pattern is a `RegularExpression Char`
whose `matches'` language gives the engine's full-match semantics. -/
structure Env where
  listing : String → Int → Int → Except String (List GistSummary × Bool)
  manifest : String → Except String (List (String × String))
  raw : String → Except String String
  compile : String → Option (RegularExpression Char)

/-- One outbound HTTP request, recorded so that theorems can speak about
which upstream calls a request performs. -/
inductive Call where
  | listing (username : String) (page per_page : Int)
  | manifest (url : String)
  | raw (url : String)
deriving Repr, DecidableEq

/-- An `abort(code, description)`: the error handlers turn it into a JSON
error response with that status code. -/
structure HttpError where
  code : Nat
  message : String
deriving Repr, DecidableEq

/-- `gists_for_user(username, page, per_page)`: one listing call; returns the
parsed gist list together with `more_pages = ("next" in response.links)`, or
raises `RuntimeError(f"Error fetching gists: {e}")` on any request failure.
The second component records the outbound calls made. -/
def gists_for_user (env : Env) (username : String) (page per_page : Int) :
    Except String (List GistSummary × Bool) × List Call :=
  match env.listing username page per_page with
  | .error e => (.error ("Error fetching gists: " ++ e), [.listing username page per_page])
  | .ok r => (.ok r, [.listing username page per_page])

/-- The file loop of `gist_files_content`: fetch each `raw_url` in manifest
order, recording `filename ↦ response.text`; the first failing fetch aborts
with 500 `Error fetching file {filename}: {e}`. -/
def fetch_raw_files (env : Env) :
    List (String × String) → Except HttpError (List (String × String)) × List Call
  | [] => (.ok [], [])
  | (filename, raw_url) :: rest =>
      match env.raw raw_url with
      | .error e =>
          (.error ⟨500, "Error fetching file " ++ filename ++ ": " ++ e⟩, [.raw raw_url])
      | .ok text =>
          match fetch_raw_files env rest with
          | (.error err, calls) => (.error err, .raw raw_url :: calls)
          | (.ok files, calls) => (.ok ((filename, text) :: files), .raw raw_url :: calls)

/-- `gist_files_content(gist_url)`: fetch the gist metadata document (whose
`files` manifest lists `filename ↦ raw_url` pairs), abort 500 with
`Error fetching gist files: {e}` if that fails, then fetch every file. -/
def gist_files_content (env : Env) (gist_url : String) :
    Except HttpError (List (String × String)) × List Call :=
  match env.manifest gist_url with
  | .error e => (.error ⟨500, "Error fetching gist files: " ++ e⟩, [.manifest gist_url])
  | .ok files =>
      match fetch_raw_files env files with
      | (res, calls) => (res, .manifest gist_url :: calls)

/-- `re.search(pattern, content)` is truthy iff the compiled pattern matches
some contiguous substring of the content: the engine tries every start
position and accepts any match length from there. -/
def re_search (r : RegularExpression Char) (s : List Char) : Bool :=
  s.tails.any fun suffix => suffix.inits.any fun mid => r.rmatch mid

/-- The `match` dict built for a hit: gist identifier, filename, and the
gist's human-facing URL. -/
structure MatchRecord where
  gist_id : String
  filename : String
  url : String
deriving Repr, DecidableEq

/-- Serialization of a match record inside a response line. -/
def matchJson (m : MatchRecord) : Json :=
  .obj [("gist_id", .str m.gist_id), ("filename", .str m.filename), ("url", .str m.url)]

/-- One `response_part` dict as built in `generate`, serialized to a stream
line by `json.dumps`. -/
def response_part (status username pattern : String) (ms : List Json)
    (page : Int) (more_pages : Bool) : Json :=
  .obj [("status", .str status), ("username", .str username), ("pattern", .str pattern),
        ("matches", .arr ms), ("page", .int page), ("more_pages", .bool more_pages)]

/-- The inner file loop of `generate` for one gist: test each file's content
with `re.search`, and for each hit append the match, validate the one-match
`response_part` against `search_output_schema` (aborting 500 on a validation
error), and yield the line.  Returns the matches appended and the lines
yielded, in order. -/
def search_files (r : RegularExpression Char) (username pattern : String)
    (page : Int) (more_pages : Bool) (g : GistSummary) :
    List (String × String) → Except HttpError (List MatchRecord × List Json)
  | [] => .ok ([], [])
  | (filename, content) :: rest =>
      if re_search r content.data then
        let m : MatchRecord := ⟨g.id, filename, g.html_url⟩
        let part := response_part "success" username pattern [matchJson m] page more_pages
        if validate_search_output part then
          match search_files r username pattern page more_pages g rest with
          | .error err => .error err
          | .ok (ms, lines) => .ok (m :: ms, part :: lines)
        else .error ⟨500, "Response validation error"⟩
      else search_files r username pattern page more_pages g rest

/-- The outer gist loop of `generate`: fetch each gist's files (any fetch
failure aborts the stream) and run the file loop. -/
def search_gists (env : Env) (r : RegularExpression Char) (username pattern : String)
    (page : Int) (more_pages : Bool) :
    List GistSummary → Except HttpError (List MatchRecord × List Json) × List Call
  | [] => (.ok ([], []), [])
  | g :: rest =>
      match gist_files_content env g.url with
      | (.error err, calls) => (.error err, calls)
      | (.ok files, calls) =>
          match search_files r username pattern page more_pages g files with
          | .error err => (.error err, calls)
          | .ok (ms, lines) =>
              match search_gists env r username pattern page more_pages rest with
              | (.error err, calls₂) => (.error err, calls ++ calls₂)
              | (.ok (ms₂, lines₂), calls₂) => (.ok (ms ++ ms₂, lines ++ lines₂), calls ++ calls₂)

/-- The generator body of `search`: list the requested page (a `RuntimeError`
becomes `abort(500, str(e))`), stream one `response_part` per match, and if
the accumulated `matches` list ended up empty, stream a single
`"no matches"` part. -/
def generate (env : Env) (r : RegularExpression Char) (username pattern : String)
    (page per_page : Int) : Except HttpError (List Json) × List Call :=
  match gists_for_user env username page per_page with
  | (.error e, calls) => (.error ⟨500, e⟩, calls)
  | (.ok (gists, more_pages), calls) =>
      match search_gists env r username pattern page more_pages gists with
      | (.error err, calls₂) => (.error err, calls ++ calls₂)
      | (.ok (ms, lines), calls₂) =>
          if ms.isEmpty then
            (.ok (lines ++ [response_part "no matches" username pattern [] page more_pages]),
             calls ++ calls₂)
          else (.ok lines, calls ++ calls₂)

/-- The two Flask error handlers serialize an aborted request as
`jsonify({"status": "error", "message": error.description})`. -/
def error_body (msg : String) : Json :=
  .obj [("status", .str "error"), ("message", .str msg)]

/-- What the service sends for one request: an error response with a status
code and JSON body, or a 200 response streaming newline-delimited JSON
lines. -/
inductive SearchResponse where
  | errorResp (code : Nat) (body : Json)
  | stream (lines : List Json)
deriving Repr

/-- `post_data.get("username")` (resp. `"pattern"`), total with a dummy
default; after schema validation the field is a present string. -/
def Json.getStr (j : Json) (k : String) : String :=
  match j.get? k with
  | some (.str s) => s
  | _ => ""

/-- `post_data.get(k, d)` for the integer fields `page` and `per_page`. -/
def Json.getIntD (j : Json) (k : String) (d : Int) : Int :=
  match j.get? k with
  | some (.int n) => n
  | _ => d

/-- The `POST /api/v1/search` handler.  `post_data = none` models a body that
parses to no JSON object.  Validation and regex compilation happen before the
streaming `Response` is built; failures become 400 error bodies, upstream
failures inside the generator become 500 error bodies.  The handler also
returns the trace of outbound upstream calls the request performed. -/
def search (env : Env) (post_data : Option Json) : SearchResponse × List Call :=
  match post_data with
  | none => (.errorResp 400 (error_body "Invalid JSON data"), [])
  | some body =>
      match validate_search_input body with
      | some msg => (.errorResp 400 (error_body ("JSON validation error: " ++ msg)), [])
      | none =>
          let username := body.getStr "username"
          let pattern := body.getStr "pattern"
          let page := body.getIntD "page" 1
          let per_page := body.getIntD "per_page" 10
          match env.compile pattern with
          | none => (.errorResp 400 (error_body "Invalid regular expression pattern"), [])
          | some r =>
              match generate env r username pattern page per_page with
              | (.error err, calls) => (.errorResp err.code (error_body err.message), calls)
              | (.ok lines, calls) => (.stream lines, calls)

/-! ### Reference definitions used to state properties of the model -/

/-- The match records one gist contributes: one per file whose content the
pattern matches somewhere. -/
def gist_matches (r : RegularExpression Char) (g : GistSummary)
    (files : List (String × String)) : List MatchRecord :=
  (files.filter fun fc => re_search r fc.2.data).map fun fc => ⟨g.id, fc.1, g.html_url⟩

/-- All match records of the requested page, in gist order then file order
(treating a gist whose fetch fails as contributing nothing; on the
error-free paths every fetch succeeded). -/
def page_matches (env : Env) (r : RegularExpression Char) : List GistSummary → List MatchRecord
  | [] => []
  | g :: rest =>
      (match (gist_files_content env g.url).1 with
       | .ok files => gist_matches r g files
       | .error _ => []) ++ page_matches env r rest

/-- The stream line emitted for one match. -/
def success_line (username pattern : String) (page : Int) (more_pages : Bool)
    (m : MatchRecord) : Json :=
  response_part "success" username pattern [matchJson m] page more_pages

/-- The expected body of an error-free stream: one line per match, or a
single `"no matches"` line when the page has none. -/
def page_stream (env : Env) (r : RegularExpression Char) (username pattern : String)
    (page : Int) (more_pages : Bool) (gists : List GistSummary) : List Json :=
  let ms := page_matches env r gists
  if ms = [] then [response_part "no matches" username pattern [] page more_pages]
  else ms.map (success_line username pattern page more_pages)

/-- The first file of a manifest whose raw fetch fails, with the error text,
scanning in manifest order. -/
def first_raw_failure (env : Env) : List (String × String) → Option (String × String)
  | [] => none
  | (filename, raw_url) :: rest =>
      match env.raw raw_url with
      | .error e => some (filename, e)
      | .ok _ => first_raw_failure env rest

/-- The complete filename-to-content mapping of a manifest, meaningful when
every raw fetch succeeds. -/
def fetched_contents (env : Env) (files : List (String × String)) : List (String × String) :=
  files.map fun fc => (fc.1, match env.raw fc.2 with | .ok t => t | .error _ => "")

/-! ### Concrete request bodies and upstream doubles used in examples -/

/-- A valid request body: username `u`, pattern `a`. -/
def post0 : Json := .obj [("username", .str "u"), ("pattern", .str "a")]

/-- An upstream double: user `u` has one gist `g1` with two files, both of
whose contents contain an `a`; the platform compiles the pattern `a` to the
single-character regex. -/
def env0 : Env where
  listing := fun u pg pp =>
    if u = "u" ∧ pg = 1 ∧ pp = 10 then .ok ([⟨"g1", "mu", "hu"⟩], false) else .error "boom"
  manifest := fun url => if url = "mu" then .ok [("f1", "r1"), ("f2", "r2")] else .error "nope"
  raw := fun url =>
    if url = "r1" then .ok "xax" else if url = "r2" then .ok "xaay" else .error "nope"
  compile := fun s => if s = "a" then some (char 'a') else none

/-- The gist list `env0` serves for user `u`. -/
def gists0 : List GistSummary := [⟨"g1", "mu", "hu"⟩]

/-- The stream line for the match in `f1` under `env0`. -/
def line_f1 : Json := success_line "u" "a" 1 false ⟨"g1", "f1", "hu"⟩

/-- The stream line for the match in `f2` under `env0`. -/
def line_f2 : Json := success_line "u" "a" 1 false ⟨"g1", "f2", "hu"⟩

/-- An upstream double whose listing endpoint always fails. -/
def envE : Env where
  listing := fun _ _ _ => .error "boom"
  manifest := fun _ => .ok []
  raw := fun _ => .ok ""
  compile := fun s => if s = "a" then some (char 'a') else none

/-- A body with empty-string username and pattern. -/
def post4 : Json := .obj [("username", .str ""), ("pattern", .str "")]

/-- An upstream double serving an empty gist page; the empty pattern
compiles (as in Python) to the empty-word regex. -/
def env4 : Env where
  listing := fun _ _ _ => .ok ([], false)
  manifest := fun _ => .ok []
  raw := fun _ => .ok ""
  compile := fun _ => some RegularExpression.epsilon

/-- A body missing the `pattern` field. -/
def post_missing_pattern : Json := .obj [("username", .str "testuser")]

/-- A body missing the `username` field. -/
def post_missing_username : Json := .obj [("pattern", .str "test")]

/-- An upstream double where gist `mu` has two files and the raw fetch of
the second file fails. -/
def env9 : Env where
  listing := fun _ _ _ => .ok ([⟨"g1", "mu", "hu"⟩], false)
  manifest := fun url => if url = "mu" then .ok [("f1", "r1"), ("f2", "r2")] else .error "nope"
  raw := fun url => if url = "r1" then .ok "x" else .error "down"
  compile := fun s => if s = "a" then some (char 'a') else none

/-! ### Field access and output-schema lemmas -/

theorem get_status (st u p : String) (ms : List Json) (pg : Int) (b : Bool) :
    (response_part st u p ms pg b).get? "status" = some (.str st) := rfl

theorem get_username (st u p : String) (ms : List Json) (pg : Int) (b : Bool) :
    (response_part st u p ms pg b).get? "username" = some (.str u) := rfl

theorem get_pattern (st u p : String) (ms : List Json) (pg : Int) (b : Bool) :
    (response_part st u p ms pg b).get? "pattern" = some (.str p) := rfl

theorem get_matches (st u p : String) (ms : List Json) (pg : Int) (b : Bool) :
    (response_part st u p ms pg b).get? "matches" = some (.arr ms) := rfl

theorem get_page (st u p : String) (ms : List Json) (pg : Int) (b : Bool) :
    (response_part st u p ms pg b).get? "page" = some (.int pg) := rfl

theorem get_more_pages (st u p : String) (ms : List Json) (pg : Int) (b : Bool) :
    (response_part st u p ms pg b).get? "more_pages" = some (.bool b) := rfl

theorem is_match_obj_matchJson (m : MatchRecord) : is_match_obj (matchJson m) = true := rfl

/-- Every `response_part` whose matches are serialized match records passes
the output-schema validation. -/
theorem validate_response_part (st u p : String) (ms : List MatchRecord) (pg : Int) (b : Bool) :
    validate_search_output (response_part st u p (ms.map matchJson) pg b) = true := by
  show (true && true && true && ((ms.map matchJson).all is_match_obj) && true && true) = true
  simp only [Bool.true_and, Bool.and_true, List.all_eq_true]
  intro j hj
  obtain ⟨m, _, rfl⟩ := List.mem_map.mp hj
  exact is_match_obj_matchJson m

/-! ### Characterization of the model's loops -/

/-- The file loop never aborts: it returns exactly the matching files'
records, each paired with its one-match line, in file order. -/
theorem search_files_eq (r : RegularExpression Char) (u p : String) (pg : Int) (b : Bool)
    (g : GistSummary) : ∀ files,
    search_files r u p pg b g files =
      .ok (gist_matches r g files, (gist_matches r g files).map (success_line u p pg b))
  | [] => rfl
  | (fn, c) :: rest => by
    have ih := search_files_eq r u p pg b g rest
    by_cases h : re_search r c.data = true
    · have hv : validate_search_output
          (response_part "success" u p [matchJson ⟨g.id, fn, g.html_url⟩] pg b) = true := by
        have := validate_response_part "success" u p [⟨g.id, fn, g.html_url⟩] pg b
        simpa using this
      simp [search_files, h, hv, ih, gist_matches, success_line, List.filter_cons]
    · simp [search_files, h, ih, gist_matches, List.filter_cons]

/-- Any error escaping the raw-file loop carries status code 500. -/
theorem fetch_raw_files_error_code (env : Env) (files : List (String × String)) (err : HttpError)
    (h : (fetch_raw_files env files).1 = .error err) : err.code = 500 := by
  induction files with
  | nil => simp [fetch_raw_files] at h
  | cons fc rest ih =>
    obtain ⟨fn, ru⟩ := fc
    rw [fetch_raw_files] at h
    cases hr : env.raw ru with
    | error e =>
      rw [hr] at h
      simp only at h
      cases h
      rfl
    | ok t =>
      rw [hr] at h
      simp only at h
      cases hrec : fetch_raw_files env rest with
      | mk res calls =>
        rw [hrec] at h
        cases res with
        | error e2 =>
          simp only at h
          cases h
          exact ih (by rw [hrec])
        | ok fs => simp at h

/-- Any error escaping `gist_files_content` carries status code 500. -/
theorem gist_files_content_error_code (env : Env) (url : String) (err : HttpError)
    (h : (gist_files_content env url).1 = .error err) : err.code = 500 := by
  rw [gist_files_content] at h
  cases hm : env.manifest url with
  | error e =>
    rw [hm] at h
    cases h
    rfl
  | ok files =>
    rw [hm] at h
    simp only at h
    exact fetch_raw_files_error_code env files err h

/-- Any error escaping the gist loop carries status code 500. -/
theorem search_gists_error_code (env : Env) (r : RegularExpression Char) (u p : String)
    (pg : Int) (b : Bool) (gists : List GistSummary) (err : HttpError)
    (h : (search_gists env r u p pg b gists).1 = .error err) : err.code = 500 := by
  induction gists with
  | nil => simp [search_gists] at h
  | cons g rest ih =>
    rw [search_gists] at h
    cases hg : gist_files_content env g.url with
    | mk res calls =>
      rw [hg] at h
      cases res with
      | error e =>
        simp only at h
        cases h
        exact gist_files_content_error_code env g.url err (by rw [hg])
      | ok files =>
        simp only at h
        rw [search_files_eq] at h
        simp only at h
        cases hrec : search_gists env r u p pg b rest with
        | mk res₂ calls₂ =>
          rw [hrec] at h
          cases res₂ with
          | error e2 =>
            simp only at h
            cases h
            exact ih (by rw [hrec])
          | ok pr => simp at h

/-- Any error escaping the generator carries status code 500. -/
theorem generate_error_code (env : Env) (r : RegularExpression Char) (u p : String)
    (pg pp : Int) (err : HttpError)
    (h : (generate env r u p pg pp).1 = .error err) : err.code = 500 := by
  rw [generate] at h
  cases hl : gists_for_user env u pg pp with
  | mk res calls =>
    rw [hl] at h
    cases res with
    | error e =>
      simp only at h
      cases h
      rfl
    | ok gm =>
      obtain ⟨gists, more⟩ := gm
      simp only at h
      cases hs : search_gists env r u p pg more gists with
      | mk res₂ calls₂ =>
        rw [hs] at h
        cases res₂ with
        | error e2 =>
          simp only at h
          cases h
          exact search_gists_error_code env r u p pg more gists err (by rw [hs])
        | ok pr =>
          obtain ⟨ms, lines⟩ := pr
          simp only at h
          by_cases hemp : ms.isEmpty
          · rw [if_pos hemp] at h; cases h
          · rw [if_neg hemp] at h; cases h

/-- On the error-free path the gist loop returns the page's matches, in gist
order then file order, and one success line per match. -/
theorem search_gists_ok (env : Env) (r : RegularExpression Char) (u p : String)
    (pg : Int) (b : Bool) : ∀ (gists : List GistSummary) (ms : List MatchRecord)
    (lines : List Json) (calls : List Call),
    search_gists env r u p pg b gists = (.ok (ms, lines), calls) →
    ms = page_matches env r gists ∧ lines = ms.map (success_line u p pg b)
  | [], ms, lines, calls => by
    intro h
    rw [search_gists] at h
    cases h
    exact ⟨rfl, rfl⟩
  | g :: rest, ms, lines, calls => by
    intro h
    rw [search_gists] at h
    cases hg : gist_files_content env g.url with
    | mk res calls₁ =>
      rw [hg] at h
      cases res with
      | error e => simp at h
      | ok files =>
        simp only at h
        rw [search_files_eq] at h
        simp only at h
        cases hrec : search_gists env r u p pg b rest with
        | mk res₂ calls₂ =>
          rw [hrec] at h
          cases res₂ with
          | error e2 => simp at h
          | ok pr =>
            obtain ⟨ms₂, lines₂⟩ := pr
            simp only at h
            obtain ⟨hms, hlines⟩ := search_gists_ok env r u p pg b rest ms₂ lines₂ calls₂ hrec
            cases h
            constructor
            · rw [page_matches, hg]
              simp [hms]
            · rw [List.map_append, hlines, hms]

/-- On the error-free path the generator streams exactly `page_stream`. -/
theorem generate_ok (env : Env) (r : RegularExpression Char) (u p : String)
    (pg pp : Int) (gists : List GistSummary) (more : Bool) (lines : List Json)
    (calls : List Call)
    (hl : env.listing u pg pp = .ok (gists, more))
    (h : generate env r u p pg pp = (.ok lines, calls)) :
    lines = page_stream env r u p pg more gists := by
  rw [generate, gists_for_user, hl] at h
  simp only at h
  cases hs : search_gists env r u p pg more gists with
  | mk res₂ calls₂ =>
    rw [hs] at h
    cases res₂ with
    | error e => simp at h
    | ok pr =>
      obtain ⟨ms, ls⟩ := pr
      obtain ⟨hms, hls⟩ := search_gists_ok env r u p pg more gists ms ls calls₂ hs
      simp only at h
      by_cases hemp : ms.isEmpty
      · rw [if_pos hemp] at h
        cases h
        rw [List.isEmpty_iff] at hemp
        rw [page_stream]
        simp [← hms, hemp, hls]
      · rw [if_neg hemp] at h
        cases h
        rw [List.isEmpty_iff] at hemp
        rw [page_stream]
        simp [← hms, hemp, hls]

/-- When the request passes validation, the pattern compiles, the listing
succeeds, and the handler answers with a stream, the streamed lines are
exactly `page_stream`. -/
theorem search_stream_eq (env : Env) (body : Json) (r : RegularExpression Char)
    (lines : List Json) (gists : List GistSummary) (more : Bool)
    (hv : validate_search_input body = none)
    (hc : env.compile (body.getStr "pattern") = some r)
    (hl : env.listing (body.getStr "username") (body.getIntD "page" 1)
      (body.getIntD "per_page" 10) = .ok (gists, more))
    (h : (search env (some body)).1 = .stream lines) :
    lines = page_stream env r (body.getStr "username") (body.getStr "pattern")
      (body.getIntD "page" 1) more gists := by
  rw [search, hv] at h
  simp only at h
  rw [hc] at h
  simp only at h
  cases hgen : generate env r (body.getStr "username") (body.getStr "pattern")
      (body.getIntD "page" 1) (body.getIntD "per_page" 10) with
  | mk res calls =>
    rw [hgen] at h
    cases res with
    | error err => simp at h
    | ok ls =>
      simp only at h
      cases h
      exact generate_ok env r (body.getStr "username") (body.getStr "pattern")
        (body.getIntD "page" 1) (body.getIntD "per_page" 10) gists more lines calls hl hgen

/-- `re.search` semantics: the search succeeds exactly when some contiguous
substring of the content is in the pattern's language. -/
theorem re_search_iff (r : RegularExpression Char) (s : List Char) :
    re_search r s = true ↔
      ∃ pre mid post : List Char, s = pre ++ mid ++ post ∧ mid ∈ r.matches' := by
  rw [re_search, List.any_eq_true]
  constructor
  · rintro ⟨suf, hsuf, h⟩
    rw [List.any_eq_true] at h
    obtain ⟨mid, hmid, hm⟩ := h
    rw [List.mem_tails] at hsuf
    rw [List.mem_inits] at hmid
    obtain ⟨pre, hpre⟩ := hsuf
    obtain ⟨post, hpost⟩ := hmid
    refine ⟨pre, mid, post, ?_, (rmatch_iff_matches' r mid).mp hm⟩
    rw [← hpre, ← hpost]
    rw [List.append_assoc]
  · rintro ⟨pre, mid, post, rfl, hm⟩
    refine ⟨mid ++ post, ?_, ?_⟩
    · rw [List.mem_tails]
      exact ⟨pre, by rw [List.append_assoc]⟩
    · rw [List.any_eq_true]
      exact ⟨mid, by rw [List.mem_inits]; exact ⟨post, rfl⟩,
        (rmatch_iff_matches' r mid).mpr hm⟩

/-- The raw-file loop is all-or-nothing: the first failing fetch (in
manifest order) aborts with a 500 naming that file and the cause, and the
result is the complete mapping exactly when no fetch fails. -/
theorem fetch_raw_files_spec (env : Env) : ∀ files : List (String × String),
    (∀ fn e, first_raw_failure env files = some (fn, e) →
      (fetch_raw_files env files).1 =
        .error ⟨500, "Error fetching file " ++ fn ++ ": " ++ e⟩) ∧
    (first_raw_failure env files = none →
      (fetch_raw_files env files).1 = .ok (fetched_contents env files))
  | [] => by
    constructor
    · intro fn e h
      simp [first_raw_failure] at h
    · intro _
      rfl
  | (fn₀, ru) :: rest => by
    obtain ⟨ih₁, ih₂⟩ := fetch_raw_files_spec env rest
    cases hr : env.raw ru with
    | error e₀ =>
      constructor
      · intro fn e h
        rw [first_raw_failure, hr] at h
        cases h
        rw [fetch_raw_files, hr]
      · intro h
        rw [first_raw_failure, hr] at h
        cases h
    | ok t =>
      constructor
      · intro fn e h
        rw [first_raw_failure, hr] at h
        rw [fetch_raw_files, hr]
        simp only
        cases hrec : fetch_raw_files env rest with
        | mk res calls =>
          have := ih₁ fn e h
          rw [hrec] at this
          simp only at this
          rw [this]
      · intro h
        rw [first_raw_failure, hr] at h
        rw [fetch_raw_files, hr]
        simp only
        cases hrec : fetch_raw_files env rest with
        | mk res calls =>
          have := ih₂ h
          rw [hrec] at this
          simp only at this
          rw [this]
          simp [fetched_contents, hr]

/-- Whatever happens downstream, a request that reaches the generator
performs the listing call first. -/
theorem generate_trace_head (env : Env) (r : RegularExpression Char) (u p : String)
    (pg pp : Int) :
    ∃ rest, (generate env r u p pg pp).2 = Call.listing u pg pp :: rest := by
  rw [generate, gists_for_user]
  cases hl : env.listing u pg pp with
  | error e => exact ⟨[], rfl⟩
  | ok gm =>
    obtain ⟨gists, more⟩ := gm
    simp only
    cases hs : search_gists env r u p pg more gists with
    | mk res calls₂ =>
      cases res with
      | error err => exact ⟨calls₂, rfl⟩
      | ok pr =>
        obtain ⟨ms, ls⟩ := pr
        simp only
        by_cases hemp : ms.isEmpty
        · rw [if_pos hemp]
          exact ⟨calls₂, rfl⟩
        · rw [if_neg hemp]
          exact ⟨calls₂, rfl⟩

/-! ### The claims -/

/-- C2: if the upstream listing call fails, the request (once past
validation and pattern compilation) is answered with a 500 JSON error body
carrying the listing failure, and the only outbound call made is the one
listing call: no gist-metadata or file-content fetch is attempted. -/
theorem C2_listing_failure (env : Env) (body : Json) (r : RegularExpression Char)
    (e : String)
    (hv : validate_search_input body = none)
    (hc : env.compile (body.getStr "pattern") = some r)
    (hl : env.listing (body.getStr "username") (body.getIntD "page" 1)
      (body.getIntD "per_page" 10) = .error e) :
    search env (some body) =
      (.errorResp 500 (error_body ("Error fetching gists: " ++ e)),
       [Call.listing (body.getStr "username") (body.getIntD "page" 1)
          (body.getIntD "per_page" 10)]) := by
  rw [search, hv]
  simp only
  rw [hc]
  simp only
  rw [generate, gists_for_user, hl]

/-- C2 witness: a concrete request against a listing endpoint that fails. -/
theorem C2_witness :
    search envE (some post0) =
      (.errorResp 500 (error_body "Error fetching gists: boom"),
       [Call.listing "u" 1 10]) :=
  C2_listing_failure envE post0 (char 'a') "boom" rfl rfl rfl

/-- C3: evaluating the handler at the two failing inputs of the claim.  A
body without `pattern` is answered 400 with message
`JSON validation error: 'pattern' is a required property`, not
`Pattern is required`; a body without `username` is answered 400 with
message `JSON validation error: 'username' is a required property`, not
`Username is required`.  (The repository's own tests assert the latter
messages, which the code does not produce.) -/
theorem C3_actual_messages (env : Env) :
    search env (some post_missing_pattern) =
      (.errorResp 400 (error_body
        "JSON validation error: \x27pattern\x27 is a required property"), []) ∧
    search env (some post_missing_username) =
      (.errorResp 400 (error_body
        "JSON validation error: \x27username\x27 is a required property"), []) :=
  ⟨rfl, rfl⟩

/-- C5: a request rejected with a 400 (for any validation failure: no JSON
body, schema violation, or a non-compiling pattern) performs zero outbound
upstream calls. -/
theorem C5_validation_no_calls (env : Env) (post_data : Option Json) (b : Json)
    (h : (search env post_data).1 = .errorResp 400 b) :
    (search env post_data).2 = [] := by
  cases post_data with
  | none => rfl
  | some body =>
    rw [search] at h ⊢
    cases hv : validate_search_input body with
    | some msg => rfl
    | none =>
      rw [hv] at h
      simp only at h ⊢
      cases hc : env.compile (body.getStr "pattern") with
      | none => rfl
      | some r =>
        rw [hc] at h
        simp only at h ⊢
        cases hgen : generate env r (body.getStr "username") (body.getStr "pattern")
            (body.getIntD "page" 1) (body.getIntD "per_page" 10) with
        | mk res calls =>
          rw [hgen] at h
          cases res with
          | ok lines => simp at h
          | error err =>
            simp only [SearchResponse.errorResp.injEq] at h
            have hcode : err.code = 500 :=
              generate_error_code env r (body.getStr "username") (body.getStr "pattern")
                (body.getIntD "page" 1) (body.getIntD "per_page" 10) err (by rw [hgen])
            rw [hcode] at h
            exact absurd h.1 (by decide)

/-- C5 witness: a request missing `pattern` is a 400 and makes no calls. -/
theorem C5_witness : (search envE (some post_missing_pattern)).2 = [] :=
  C5_validation_no_calls envE (some post_missing_pattern)
    (error_body "JSON validation error: \x27pattern\x27 is a required property") rfl

/-- C9: the gist content fetch is all-or-nothing.  A failing manifest fetch
aborts with a 500 naming the cause; the first failing file fetch aborts
with a 500 naming that filename and the cause, returning no partial
mapping; the mapping is returned exactly when every fetch succeeds. -/
theorem C9_all_or_nothing (env : Env) (url : String) :
    (∀ e, env.manifest url = .error e →
      gist_files_content env url =
        (.error ⟨500, "Error fetching gist files: " ++ e⟩, [.manifest url])) ∧
    (∀ files fn e, env.manifest url = .ok files →
      first_raw_failure env files = some (fn, e) →
      (gist_files_content env url).1 =
        .error ⟨500, "Error fetching file " ++ fn ++ ": " ++ e⟩) ∧
    (∀ files, env.manifest url = .ok files →
      first_raw_failure env files = none →
      (gist_files_content env url).1 = .ok (fetched_contents env files)) := by
  refine ⟨?_, ?_, ?_⟩
  · intro e hm
    rw [gist_files_content, hm]
  · intro files fn e hm hf
    rw [gist_files_content, hm]
    simp only
    cases hrec : fetch_raw_files env files with
    | mk res calls =>
      have := (fetch_raw_files_spec env files).1 fn e hf
      rw [hrec] at this
      simp only at this
      rw [this]
  · intro files hm hf
    rw [gist_files_content, hm]
    simp only
    cases hrec : fetch_raw_files env files with
    | mk res calls =>
      have := (fetch_raw_files_spec env files).2 hf
      rw [hrec] at this
      simp only at this
      rw [this]

/-- C9 witness: under `env9` the second file's raw fetch fails, and the
whole fetch aborts naming `f2` with no partial mapping. -/
theorem C9_witness :
    (gist_files_content env9 "mu").1 = .error ⟨500, "Error fetching file f2: down"⟩ :=
  (C9_all_or_nothing env9 "mu").2.1 [("f1", "r1"), ("f2", "r2")] "f2" "down" rfl rfl

/-- C1 counterexample: under `env0` a valid request finds two matches, and
the 200 response body is two newline-delimited JSON objects, each carrying a
single-element `matches` array — not a single JSON object containing every
match record of the page. -/
theorem C1_counterexample :
    (search env0 (some post0)).1 = .stream [line_f1, line_f2] ∧
    ¬ ∃ j : Json, (search env0 (some post0)).1 = .stream [j] := by
  refine ⟨rfl, ?_⟩
  rintro ⟨j, hj⟩
  rw [show (search env0 (some post0)).1 = .stream [line_f1, line_f2] from rfl] at hj
  simp at hj

/-- C1 (amended): a valid request that completes without an upstream error
is answered 200 with a stream of newline-delimited JSON objects of shape
`status, username, pattern, matches, page, more_pages`: one object per
match whose `matches` array is the singleton of that match record (in gist
order then file order, covering every match of the requested page), or a
single object with status `no matches` and an empty `matches` array when
the page has none. -/
theorem C1_stream_contract (env : Env) (body : Json) (r : RegularExpression Char)
    (lines : List Json) (gists : List GistSummary) (more : Bool)
    (hv : validate_search_input body = none)
    (hc : env.compile (body.getStr "pattern") = some r)
    (hl : env.listing (body.getStr "username") (body.getIntD "page" 1)
      (body.getIntD "per_page" 10) = .ok (gists, more))
    (h : (search env (some body)).1 = .stream lines) :
    (page_matches env r gists ≠ [] →
      lines = (page_matches env r gists).map
        (success_line (body.getStr "username") (body.getStr "pattern")
          (body.getIntD "page" 1) more)) ∧
    (page_matches env r gists = [] →
      lines = [response_part "no matches" (body.getStr "username")
        (body.getStr "pattern") [] (body.getIntD "page" 1) more]) := by
  have hlines := search_stream_eq env body r lines gists more hv hc hl h
  rw [page_stream] at hlines
  constructor
  · intro hne
    rw [if_neg hne] at hlines
    exact hlines
  · intro heq
    rw [if_pos heq] at hlines
    exact hlines

/-- C1 witness: under `env0` the two matches stream as their two singleton
lines. -/
theorem C1_witness :
    [line_f1, line_f2] = (page_matches env0 (char 'a') gists0).map
      (success_line "u" "a" 1 false) :=
  (C1_stream_contract env0 post0 (char 'a') [line_f1, line_f2] gists0 false
    rfl rfl rfl rfl).1 (by decide)

/-- C4 counterexample: the body with empty-string `username` and `pattern`
is not rejected: the handler answers it with a 200 stream (a `no matches`
line under `env4`) after making the upstream listing call, instead of a 400
before any network call. -/
theorem C4_counterexample :
    (search env4 (some post4)).1 = .stream [response_part "no matches" "" "" [] 1 false] ∧
    (search env4 (some post4)).2 = [Call.listing "" 1 10] ∧
    ¬ ∃ b : Json, (search env4 (some post4)).1 = .errorResp 400 b := by
  refine ⟨rfl, rfl, ?_⟩
  rintro ⟨b, hb⟩
  rw [show (search env4 (some post4)).1 =
    .stream [response_part "no matches" "" "" [] 1 false] from rfl] at hb
  simp at hb

/-- C4 (amended): a body carrying empty strings for `username` and
`pattern` passes input validation — the schema only requires presence and
string type — and the request proceeds to the upstream listing call
(provided the empty pattern compiles, as it does in Python). -/
theorem C4_empty_accepted (env : Env) (r : RegularExpression Char)
    (hc : env.compile "" = some r) :
    validate_search_input post4 = none ∧
    ∃ rest, (search env (some post4)).2 = Call.listing "" 1 10 :: rest := by
  refine ⟨rfl, ?_⟩
  have key : search env (some post4) =
      (match generate env r "" "" 1 10 with
       | (Except.error err, calls) => (SearchResponse.errorResp err.code (error_body err.message), calls)
       | (Except.ok lines, calls) => (SearchResponse.stream lines, calls)) := by
    show (match env.compile "" with
          | none => (SearchResponse.errorResp 400 (error_body "Invalid regular expression pattern"),
                     ([] : List Call))
          | some r =>
            match generate env r "" "" 1 10 with
            | (Except.error err, calls) =>
                (SearchResponse.errorResp err.code (error_body err.message), calls)
            | (Except.ok lines, calls) => (SearchResponse.stream lines, calls)) = _
    rw [hc]
  rw [key]
  obtain ⟨rest, htr⟩ := generate_trace_head env r "" "" 1 10
  cases hgen : generate env r "" "" 1 10 with
  | mk res calls =>
    rw [hgen] at htr
    cases res with
    | error err => exact ⟨rest, htr⟩
    | ok lines => exact ⟨rest, htr⟩

/-- C4 witness: the concrete proceed-through under `env4`. -/
theorem C4_witness :
    validate_search_input post4 = none ∧
    ∃ rest, (search env4 (some post4)).2 = Call.listing "" 1 10 :: rest :=
  C4_empty_accepted env4 RegularExpression.epsilon rfl

/-- C6: on an error-free search, every streamed line has status `success`
exactly when the accumulated match sequence of the page is non-empty, and
status `no matches` exactly when it is empty. -/
theorem C6_status (env : Env) (body : Json) (r : RegularExpression Char)
    (lines : List Json) (gists : List GistSummary) (more : Bool)
    (hv : validate_search_input body = none)
    (hc : env.compile (body.getStr "pattern") = some r)
    (hl : env.listing (body.getStr "username") (body.getIntD "page" 1)
      (body.getIntD "per_page" 10) = .ok (gists, more))
    (h : (search env (some body)).1 = .stream lines) :
    ∀ l ∈ lines,
      (l.get? "status" = some (.str "success") ↔ page_matches env r gists ≠ []) ∧
      (l.get? "status" = some (.str "no matches") ↔ page_matches env r gists = []) := by
  have hlines := search_stream_eq env body r lines gists more hv hc hl h
  rw [page_stream] at hlines
  intro l hl'
  by_cases heq : page_matches env r gists = []
  · rw [if_pos heq] at hlines
    subst hlines
    simp only [List.mem_singleton] at hl'
    subst hl'
    rw [get_status]
    constructor
    · constructor
      · intro hcontra
        simp at hcontra
      · intro hne
        exact absurd heq hne
    · simp [heq]
  · rw [if_neg heq] at hlines
    subst hlines
    obtain ⟨m, _, rfl⟩ := List.mem_map.mp hl'
    rw [success_line, get_status]
    constructor
    · simp [heq]
    · constructor
      · intro hcontra
        simp at hcontra
      · intro habs
        exact absurd habs heq

/-- C6 witness: the first line of the `env0` stream has status `success`
and the page's match sequence is non-empty. -/
theorem C6_witness :
    (line_f1.get? "status" = some (.str "success") ↔
      page_matches env0 (char 'a') gists0 ≠ []) ∧
    (line_f1.get? "status" = some (.str "no matches") ↔
      page_matches env0 (char 'a') gists0 = []) :=
  C6_status env0 post0 (char 'a') [line_f1, line_f2] gists0 false rfl rfl rfl rfl
    line_f1 (List.mem_cons_self line_f1 [line_f2])

/-- C7: on an error-free search, every streamed line's `more_pages` equals
the boolean the listing call derived from the upstream `next` link relation
for the requested page — it is a constant of the page, independent of the
match and gist counts. -/
theorem C7_more_pages (env : Env) (body : Json) (r : RegularExpression Char)
    (lines : List Json) (gists : List GistSummary) (more : Bool)
    (hv : validate_search_input body = none)
    (hc : env.compile (body.getStr "pattern") = some r)
    (hl : env.listing (body.getStr "username") (body.getIntD "page" 1)
      (body.getIntD "per_page" 10) = .ok (gists, more))
    (h : (search env (some body)).1 = .stream lines) :
    ∀ l ∈ lines, l.get? "more_pages" = some (.bool more) := by
  have hlines := search_stream_eq env body r lines gists more hv hc hl h
  rw [page_stream] at hlines
  intro l hl'
  by_cases heq : page_matches env r gists = []
  · rw [if_pos heq] at hlines
    subst hlines
    simp only [List.mem_singleton] at hl'
    subst hl'
    exact get_more_pages _ _ _ _ _ _
  · rw [if_neg heq] at hlines
    subst hlines
    obtain ⟨m, _, rfl⟩ := List.mem_map.mp hl'
    exact get_more_pages _ _ _ _ _ _

/-- C7 witness: both lines of the `env0` stream carry the listing's
`more_pages = false`. -/
theorem C7_witness : line_f1.get? "more_pages" = some (.bool false) :=
  C7_more_pages env0 post0 (char 'a') [line_f1, line_f2] gists0 false rfl rfl rfl rfl
    line_f1 (List.mem_cons_self line_f1 [line_f2])

/-- C8: the file loop produces exactly one match record per file whose
content the pattern matches, and none for the others; and `re.search`
succeeds on a content exactly when some contiguous substring of it — not
necessarily a prefix, nor the whole content — lies in the pattern's
language. -/
theorem C8_substring_matches (r : RegularExpression Char) (username pattern : String)
    (page : Int) (more_pages : Bool) (g : GistSummary) (files : List (String × String)) :
    search_files r username pattern page more_pages g files =
      .ok ((files.filter fun fc => re_search r fc.2.data).map
             (fun fc => (⟨g.id, fc.1, g.html_url⟩ : MatchRecord)),
           ((files.filter fun fc => re_search r fc.2.data).map
             (fun fc => (⟨g.id, fc.1, g.html_url⟩ : MatchRecord))).map
             (success_line username pattern page more_pages)) ∧
    ∀ content : String, re_search r content.data = true ↔
      ∃ pre mid post : List Char, content.data = pre ++ mid ++ post ∧ mid ∈ r.matches' :=
  ⟨search_files_eq r username pattern page more_pages g files,
   fun content => re_search_iff r content.data⟩

/-- C10: on an error-free search, every streamed line validates against the
output schema; the `username`, `pattern`, `page` and `more_pages` fields are
the same on every line of the request; and every line with status `success`
carries a `matches` array of exactly one match record. -/
theorem C10_output_invariants (env : Env) (body : Json) (r : RegularExpression Char)
    (lines : List Json) (gists : List GistSummary) (more : Bool)
    (hv : validate_search_input body = none)
    (hc : env.compile (body.getStr "pattern") = some r)
    (hl : env.listing (body.getStr "username") (body.getIntD "page" 1)
      (body.getIntD "per_page" 10) = .ok (gists, more))
    (h : (search env (some body)).1 = .stream lines) :
    ∀ l ∈ lines,
      validate_search_output l = true ∧
      l.get? "username" = some (.str (body.getStr "username")) ∧
      l.get? "pattern" = some (.str (body.getStr "pattern")) ∧
      l.get? "page" = some (.int (body.getIntD "page" 1)) ∧
      l.get? "more_pages" = some (.bool more) ∧
      (l.get? "status" = some (.str "success") →
        ∃ m : MatchRecord, l.get? "matches" = some (.arr [matchJson m])) := by
  have hlines := search_stream_eq env body r lines gists more hv hc hl h
  rw [page_stream] at hlines
  intro l hl'
  by_cases heq : page_matches env r gists = []
  · rw [if_pos heq] at hlines
    subst hlines
    simp only [List.mem_singleton] at hl'
    subst hl'
    refine ⟨?_, get_username _ _ _ _ _ _, get_pattern _ _ _ _ _ _,
      get_page _ _ _ _ _ _, get_more_pages _ _ _ _ _ _, ?_⟩
    · have := validate_response_part "no matches" (body.getStr "username")
        (body.getStr "pattern") [] (body.getIntD "page" 1) more
      simpa using this
    · intro hcontra
      rw [get_status] at hcontra
      simp at hcontra
  · rw [if_neg heq] at hlines
    subst hlines
    obtain ⟨m, _, rfl⟩ := List.mem_map.mp hl'
    rw [success_line]
    refine ⟨?_, get_username _ _ _ _ _ _, get_pattern _ _ _ _ _ _,
      get_page _ _ _ _ _ _, get_more_pages _ _ _ _ _ _, ?_⟩
    · have := validate_response_part "success" (body.getStr "username")
        (body.getStr "pattern") [m] (body.getIntD "page" 1) more
      simpa using this
    · intro _
      exact ⟨m, get_matches _ _ _ _ _ _⟩

/-- C10 witness: the invariants at the first line of the `env0` stream. -/
theorem C10_witness :
    validate_search_output line_f1 = true ∧
    line_f1.get? "username" = some (.str "u") ∧
    line_f1.get? "pattern" = some (.str "a") ∧
    line_f1.get? "page" = some (.int 1) ∧
    line_f1.get? "more_pages" = some (.bool false) ∧
    (line_f1.get? "status" = some (.str "success") →
      ∃ m : MatchRecord, line_f1.get? "matches" = some (.arr [matchJson m])) :=
  C10_output_invariants env0 post0 (char 'a') [line_f1, line_f2] gists0 false
    rfl rfl rfl rfl line_f1 (List.mem_cons_self line_f1 [line_f2])

end Gistapi
